import Mathlib

/-!
Shallow embedding of the pointer-queue core declared in
src/hotspot/share/gc/shared/ptrQueue.hpp and the CPU-time counter
accumulation implemented in src/hotspot/share/runtime/cpuTimeCounters.cpp.

Modelling conventions:
  - Machine integers are Nat (size_t, uint32_t) or Int (jlong); where the
    source narrows or wraps, the modulus is explicit
    (InternalSizeType is uint32_t on LP64, jlong wraps at 2^64).
  - Assertion failures (fatal on misuse) are modelled by Option: a checked
    operation returns none exactly when its precondition assertion fires.
  - Buffer slot payloads (void* values) are modelled as Nat.
  - Pointers/addresses used by the node/buffer address mapping are modelled
    as Nat addresses below 2^64, with pointer arithmetic taken mod 2^64.
-/

/-- Slot payloads: the opaque void* values recorded by the write barrier. -/
abbrev Val := Nat

/-- PtrQueue::_element_size = sizeof(void*) on an LP64 platform. -/
def elementSize : Nat := 8

/-- Modulus of BufferNode::InternalSizeType (uint32_t on LP64): 2^32. -/
def internalSizeMod : Nat := 4294967296

/-- BufferNode: the fill index and capacity (both held in InternalSizeType),
the intrusive next link (modelled as an optional address), and the slot
array (the pseudo flexible array member, modelled as a list of slots). -/
structure BufferNode where
  index : Nat
  capacity : Nat
  next : Option Nat
  data : List Val
deriving DecidableEq

/-- BufferNode::max_size(): numeric_limits of InternalSizeType, 2^32 - 1. -/
def BufferNode.max_size : Nat := internalSizeMod - 1

/-- BufferNode::BufferNode(capacity): sets index = capacity, next = nullptr;
the capacity argument passes through the InternalSizeType narrowing cast at
construction.  Fresh slot storage is modelled as zero-initialised slots. -/
def mkBufferNode (capacity : Nat) : BufferNode :=
  { index := capacity % internalSizeMod,
    capacity := capacity % internalSizeMod,
    next := none,
    data := List.replicate (capacity % internalSizeMod) 0 }

/-- BufferNode::set_index(i): asserts i <= capacity (none when the assertion
fires), then stores static_cast to InternalSizeType of i. -/
def BufferNode.set_index (n : BufferNode) (i : Nat) : Option BufferNode :=
  if i ≤ n.capacity then some { n with index := i % internalSizeMod } else none

/-- BufferNode::set_next. -/
def BufferNode.set_next (n : BufferNode) (p : Option Nat) : BufferNode :=
  { n with next := p }

/-- BufferNode::is_empty(): index == capacity. -/
def BufferNode.is_empty (n : BufferNode) : Bool := n.index == n.capacity

/-- BufferNode::size(): capacity - index (size_t subtraction). -/
def BufferNode.size (n : BufferNode) : Nat := n.capacity - n.index

/-- offset_of(BufferNode, _buffer) on LP64: two 4-byte InternalSizeType
fields followed by one 8-byte next pointer. -/
def BufferNode.buffer_offset : Nat := 16

/-- Size of the 64-bit address space: 2^64. -/
def addrSpace : Nat := 18446744073709551616

/-- BufferNode::make_buffer_from_node: the slot-array address is the node
address plus the fixed header offset (64-bit pointer arithmetic). -/
def make_buffer_from_node (node : Nat) : Nat :=
  (node + BufferNode.buffer_offset) % addrSpace

/-- BufferNode::make_node_from_buffer: the node address is the slot-array
address minus the fixed header offset (64-bit two's-complement subtraction,
modelled as adding the additive inverse mod 2^64). -/
def make_node_from_buffer (buffer : Nat) : Nat :=
  (buffer + (addrSpace - BufferNode.buffer_offset)) % addrSpace

/-- PtrQueue: the byte index _index and the slot-array pointer _buf.  The
buffer pointer is modelled directly as the node it designates (none models
null); the node's own metadata is recovered through it, mirroring
make_node_from_buffer on the concrete layout. -/
structure PtrQueue where
  indexBytes : Nat
  buf : Option BufferNode
deriving DecidableEq

/-- PtrQueue::byte_index_to_index (the alignment assertion always holds on
the reachable states, where the byte index is a multiple of the slot width). -/
def byte_index_to_index (ind : Nat) : Nat := ind / elementSize

/-- PtrQueue::index_to_byte_index. -/
def index_to_byte_index (ind : Nat) : Nat := ind * elementSize

/-- PtrQueue::index(): the byte index converted to a slot index. -/
def PtrQueue.index (q : PtrQueue) : Nat := byte_index_to_index q.indexBytes

/-- Modelled from the spec: PtrQueue::current_capacity() is declared in
ptrQueue.hpp but defined in ptrQueue.cpp, which is not part of this excerpt.
Spec: 0 if no buffer, else the bound node's capacity. -/
def PtrQueue.current_capacity (q : PtrQueue) : Nat :=
  match q.buf with
  | none => 0
  | some n => n.capacity

/-- PtrQueue::set_index(i): asserts i <= current_capacity() (none when the
assertion fires), then stores the byte index i * element_size. -/
def PtrQueue.set_index (q : PtrQueue) (i : Nat) : Option PtrQueue :=
  if i ≤ q.current_capacity then
    some { q with indexBytes := index_to_byte_index i }
  else none

/-- PtrQueue::is_empty(): index() == current_capacity(). -/
def PtrQueue.is_empty (q : PtrQueue) : Bool := q.index == q.current_capacity

/-- PtrQueue::size(): current_capacity() - index(). -/
def PtrQueue.size (q : PtrQueue) : Nat := q.current_capacity - q.index

/-- Modelled from the spec: PtrQueueSet::try_enqueue is declared in
ptrQueue.hpp (lines 236-239: add value to queue's buffer, returning true; if
the buffer is full or the queue has no buffer, does nothing and returns
false) but its body is in ptrQueue.cpp, which is not part of this excerpt.
Spec 4.4: if queue.buf == null or the buffer is full (index == 0), returns
failure with no mutation; otherwise decrements index by one slot width and
stores value at the new index position, returning success. -/
def try_enqueue (q : PtrQueue) (v : Val) : Bool × PtrQueue :=
  match q.buf with
  | none => (false, q)
  | some n =>
    if q.index = 0 then (false, q)
    else
      let newBytes := q.indexBytes - elementSize
      (true, { indexBytes := newBytes,
               buf := some { n with data := n.data.set (byte_index_to_index newBytes) v } })

/-- Iterate try_enqueue over a list of values, collecting each call's
success flag and the final queue state. -/
def runEnqueues (q : PtrQueue) : List Val → List Bool × PtrQueue
  | [] => ([], q)
  | v :: vs =>
    let r := try_enqueue q v
    let rest := runEnqueues r.2 vs
    (r.1 :: rest.1, rest.2)

/-- State shared through a PtrQueueSet, as needed by the flush/exchange
operations: one owned queue, the allocator's free list, and the record of
nodes handed to the completed-buffer sink (one entry per
enqueue_completed_buffer invocation). -/
structure QSetState where
  queue : PtrQueue
  freeList : List BufferNode
  completed : List BufferNode
deriving DecidableEq

/-- Modelled from the spec: BufferNode::Allocator::allocate is declared in
ptrQueue.hpp but defined in ptrQueue.cpp, which is not part of this excerpt.
Spec 4.2: returns an empty node (index == capacity); pulls from the free
list if non-empty, else allocates a fresh node of the fixed capacity. -/
def allocate (cap : Nat) (fl : List BufferNode) : BufferNode × List BufferNode :=
  match fl with
  | [] => (mkBufferNode cap, [])
  | n :: rest => ({ n with index := n.capacity, next := none }, rest)

/-- Modelled from the spec: BufferNode::Allocator::release is declared in
ptrQueue.hpp but defined in ptrQueue.cpp, which is not part of this excerpt.
Spec 4.2: returns the node to the free list for reuse (a push onto the
free-list stack). -/
def release (n : BufferNode) (fl : List BufferNode) : List BufferNode := n :: fl

/-- BufferNode::Allocator::free_count(): number of nodes on the free list. -/
def free_count (st : QSetState) : Nat := st.freeList.length

/-- Modelled from the spec: PtrQueueSet::install_new_buffer is declared in
ptrQueue.hpp but defined in ptrQueue.cpp, which is not part of this excerpt.
Spec 4.4: unconditionally gives the queue a fresh empty node from the
allocator, discarding any reference to a previous node; the queue's cached
index is set to the new node's capacity (empty). -/
def install_new_buffer (cap : Nat) (st : QSetState) : QSetState :=
  let an := allocate cap st.freeList
  { st with
    queue := { indexBytes := index_to_byte_index an.1.capacity, buf := some an.1 },
    freeList := an.2 }

/-- Modelled from the spec: PtrQueueSet::exchange_buffer_with_new is declared
in ptrQueue.hpp (lines 245-247: installs a new buffer into queue, returns
the old buffer, or null if queue didn't have a buffer) but its body is in
ptrQueue.cpp, which is not part of this excerpt.  The previous node is
recovered from the queue's buffer pointer with its index set from the
queue's cached index (the make_node_from_buffer(buffer, index) overload of
ptrQueue.hpp lines 163-168), then a fresh node is installed. -/
def exchange_buffer_with_new (cap : Nat) (st : QSetState) : Option BufferNode × QSetState :=
  let prev : Option BufferNode :=
    match st.queue.buf with
    | none => none
    | some n => some { n with index := st.queue.index }
  (prev, install_new_buffer cap st)

/-- Modelled from the spec: PtrQueueSet::flush_queue is declared in
ptrQueue.hpp (lines 233-235: if queue has any buffered enqueued data,
transfer it to the qset, otherwise deallocate queue's buffer) but its body
is in ptrQueue.cpp, which is not part of this excerpt.  Spec 4.4: a
non-empty buffer is routed to enqueue_completed_buffer; an empty buffer is
released directly to the allocator's free list; either way the queue ends
with no buffer.  The node's index is synchronised from the queue's cached
index before routing. -/
def flush_queue (st : QSetState) : QSetState :=
  match st.queue.buf with
  | none => st
  | some n =>
    let node : BufferNode := { n with index := st.queue.index }
    let cleared : PtrQueue := { indexBytes := 0, buf := none }
    if node.index = node.capacity then
      { queue := cleared, freeList := release node st.freeList, completed := st.completed }
    else
      { queue := cleared, freeList := st.freeList, completed := st.completed ++ [node] }

/-- A queue-set state with no queue buffer, an empty free list and no
completed buffers. -/
def emptyQSet : QSetState :=
  { queue := { indexBytes := 0, buf := none }, freeList := [], completed := [] }

/-- Capacity-4 scenario of spec section 8: a fresh buffer installed into an
otherwise empty state. -/
def scenarioStart : QSetState := install_new_buffer 4 emptyQSet

/-- The scenario queue after enqueueing the values 1, 2, 3, 4. -/
def scenarioQueue : PtrQueue := (runEnqueues scenarioStart.queue [1, 2, 3, 4]).2

/-- The scenario exchange: swap out the filled buffer for a fresh one. -/
def scenarioExchange : Option BufferNode × QSetState :=
  exchange_buffer_with_new 4 { scenarioStart with queue := scenarioQueue }

/-- A state whose queue holds a capacity-1 buffer with one unconsumed entry
(queue index 0): the non-empty flush case. -/
def flushStNonEmpty : QSetState :=
  { queue := { indexBytes := 0, buf := some (mkBufferNode 1) },
    freeList := [], completed := [] }

/-- A state whose queue holds an empty capacity-1 buffer (queue index 1 =
capacity): the empty flush case. -/
def flushStEmpty : QSetState :=
  { queue := { indexBytes := 8, buf := some (mkBufferNode 1) },
    freeList := [], completed := [] }

/-- Two's-complement 64-bit wrap of a jlong value into
[-2^63, 2^63): the semantics of jlong addition overflow. -/
def wrap64 (x : Int) : Int :=
  (x + 9223372036854775808) % 18446744073709551616 - 9223372036854775808

/-- CPUTimeCounters state relevant to GC total time accumulation: the
pending difference _gc_total_cpu_time_diff and the value of the gc_total
performance counter. -/
structure CPUTimeCountersState where
  gc_total_cpu_time_diff : Int
  gc_total : Int
deriving DecidableEq

/-- CPUTimeCounters::inc_gc_total_cpu_time(diff):
Atomic::add(&_gc_total_cpu_time_diff, diff) (jlong wrap-around addition). -/
def inc_gc_total_cpu_time (s : CPUTimeCountersState) (diff : Int) : CPUTimeCountersState :=
  { s with gc_total_cpu_time_diff := wrap64 (s.gc_total_cpu_time_diff + diff) }

/-- CPUTimeCounters::publish_gc_total_cpu_time(), sequential execution: the
initial load returns the stored difference; the cmpxchg succeeds on its
first iteration (no concurrent writer), swapping in zero and returning the
old value, which the loop condition accepts; the gc_total counter is then
incremented by that fetched value. -/
def publish_gc_total_cpu_time (s : CPUTimeCountersState) : CPUTimeCountersState :=
  { gc_total_cpu_time_diff := 0,
    gc_total := wrap64 (s.gc_total + s.gc_total_cpu_time_diff) }

/-- Apply inc_gc_total_cpu_time for each amount in the list, left to right. -/
def incs (s : CPUTimeCountersState) (ds : List Int) : CPUTimeCountersState :=
  ds.foldl inc_gc_total_cpu_time s

/-- Claim C3: the BufferNode invariant 0 <= index <= capacity holds after
construction (which sets index = capacity) and is preserved by every
mutating operation on the node: set_index (which only accepts i <= capacity,
asserting otherwise) and set_next (which does not touch index/capacity). -/
theorem bufferNodeInvariant :
    (∀ c : Nat, (mkBufferNode c).index = (mkBufferNode c).capacity) ∧
    (∀ (n n' : BufferNode) (i : Nat), n.set_index i = some n' →
      n'.index ≤ n'.capacity) ∧
    (∀ (n : BufferNode) (p : Option Nat), n.index ≤ n.capacity →
      (n.set_next p).index ≤ (n.set_next p).capacity) := by
  refine ⟨fun c => rfl, ?_, ?_⟩
  · intro n n' i h
    unfold BufferNode.set_index at h
    split at h
    · next hc =>
      obtain rfl := Option.some.inj h
      have := Nat.mod_le i internalSizeMod
      simpa using le_trans this hc
    · exact Option.noConfusion h
  · intro n p h
    exact h

/-- Witness for C3 at concrete inputs: set_index 2 on a capacity-4 node and
set_next both preserve the invariant. -/
theorem bufferNodeInvariant_witness :
    (({ mkBufferNode 4 with index := 2 } : BufferNode).index ≤
      ({ mkBufferNode 4 with index := 2 } : BufferNode).capacity) ∧
    (((mkBufferNode 4).set_next (some 1)).index ≤
      ((mkBufferNode 4).set_next (some 1)).capacity) :=
  ⟨bufferNodeInvariant.2.1 (mkBufferNode 4) { mkBufferNode 4 with index := 2 } 2 (by decide),
   bufferNodeInvariant.2.2 (mkBufferNode 4) (some 1) (by decide)⟩

/-- Claim C4: for a BufferNode and a PtrQueue whose index does not exceed
the capacity, is_empty holds iff index equals capacity (current_capacity
for the queue), and size + index = capacity always holds. -/
theorem isEmptySizeCorrect (n : BufferNode) (q : PtrQueue)
    (hn : n.index ≤ n.capacity) (hq : q.index ≤ q.current_capacity) :
    (n.is_empty = true ↔ n.index = n.capacity) ∧
    n.size + n.index = n.capacity ∧
    (q.is_empty = true ↔ q.index = q.current_capacity) ∧
    q.size + q.index = q.current_capacity := by
  refine ⟨?_, ?_, ?_, ?_⟩ <;>
    simp [BufferNode.is_empty, BufferNode.size, PtrQueue.is_empty, PtrQueue.size] <;>
    omega

/-- Witness for C4 at a concrete node (fresh capacity-2 node) and a concrete
queue (no buffer). -/
theorem isEmptySizeCorrect_witness :
    ((mkBufferNode 2).is_empty = true ↔
      (mkBufferNode 2).index = (mkBufferNode 2).capacity) ∧
    (mkBufferNode 2).size + (mkBufferNode 2).index = (mkBufferNode 2).capacity ∧
    (PtrQueue.is_empty { indexBytes := 0, buf := none } = true ↔
      PtrQueue.index { indexBytes := 0, buf := none } =
        PtrQueue.current_capacity { indexBytes := 0, buf := none }) ∧
    PtrQueue.size { indexBytes := 0, buf := none } +
        PtrQueue.index { indexBytes := 0, buf := none } =
      PtrQueue.current_capacity { indexBytes := 0, buf := none } :=
  isEmptySizeCorrect (mkBufferNode 2) { indexBytes := 0, buf := none }
    (by decide) (by decide)

/-- Claim C5: the buffer-to-node address mapping is a round-trip bijection:
recovering the node address from the buffer address obtained from a node
address gives the original address back, both directions applying the same
fixed header offset (64-bit pointer arithmetic). -/
theorem makeNodeRoundTrip (a : Nat) (h : a < addrSpace) :
    make_node_from_buffer (make_buffer_from_node a) = a := by
  unfold make_node_from_buffer make_buffer_from_node BufferNode.buffer_offset addrSpace at *
  omega

/-- Witness for C5 at the concrete node address 4096. -/
theorem makeNodeRoundTrip_witness :
    make_node_from_buffer (make_buffer_from_node 4096) = 4096 :=
  makeNodeRoundTrip 4096 (by decide)

/-- Claim C8: set_index(i) with i <= capacity succeeds (no assertion) and
afterwards index() returns exactly i: no truncation by the InternalSizeType
cast on BufferNode (given the capacity fits the internal type, as the
constructor guarantees) and no loss through the byte/slot index conversion
on PtrQueue; with i above the capacity the precondition assertion fires
(modelled as none). -/
theorem setIndexCorrect :
    (∀ (n : BufferNode) (i : Nat), n.capacity ≤ BufferNode.max_size →
      i ≤ n.capacity → n.set_index i = some { n with index := i }) ∧
    (∀ (n : BufferNode) (i : Nat), n.capacity < i → n.set_index i = none) ∧
    (∀ (q : PtrQueue) (i : Nat), i ≤ q.current_capacity →
      q.set_index i = some { q with indexBytes := index_to_byte_index i } ∧
      PtrQueue.index { q with indexBytes := index_to_byte_index i } = i) ∧
    (∀ (q : PtrQueue) (i : Nat), q.current_capacity < i → q.set_index i = none) := by
  refine ⟨?_, ?_, ?_, ?_⟩
  · intro n i hc hi
    have hlt : i < internalSizeMod := by
      have h2 := le_trans hi hc
      unfold BufferNode.max_size at h2
      unfold internalSizeMod at h2 ⊢
      omega
    simp [BufferNode.set_index, hi, Nat.mod_eq_of_lt hlt]
  · intro n i h
    unfold BufferNode.set_index
    rw [if_neg (by omega)]
  · intro q i hi
    refine ⟨by simp [PtrQueue.set_index, hi], ?_⟩
    simp only [PtrQueue.index, byte_index_to_index, index_to_byte_index, elementSize]
    omega
  · intro q i h
    unfold PtrQueue.set_index
    rw [if_neg (by omega)]

/-- Witness for C8 at concrete inputs: a capacity-4 node with i = 2 (accepted)
and i = 9 (assertion fires); a queue over a capacity-4 buffer with i = 3
(accepted, index() reads back 3) and i = 7 (assertion fires). -/
theorem setIndexCorrect_witness :
    ((mkBufferNode 4).set_index 2 = some { mkBufferNode 4 with index := 2 }) ∧
    ((mkBufferNode 4).set_index 9 = none) ∧
    (PtrQueue.set_index { indexBytes := 0, buf := some (mkBufferNode 4) } 3 =
      some { indexBytes := index_to_byte_index 3, buf := some (mkBufferNode 4) }) ∧
    (PtrQueue.index
        { indexBytes := index_to_byte_index 3,
          buf := some (mkBufferNode 4) } = 3) ∧
    (PtrQueue.set_index { indexBytes := 0, buf := some (mkBufferNode 4) } 7 = none) :=
  ⟨setIndexCorrect.1 (mkBufferNode 4) 2 (by decide) (by decide),
   setIndexCorrect.2.1 (mkBufferNode 4) 9 (by decide),
   (setIndexCorrect.2.2.1 { indexBytes := 0, buf := some (mkBufferNode 4) } 3 (by decide)).1,
   (setIndexCorrect.2.2.1 { indexBytes := 0, buf := some (mkBufferNode 4) } 3 (by decide)).2,
   setIndexCorrect.2.2.2 { indexBytes := 0, buf := some (mkBufferNode 4) } 7 (by decide)⟩

/-- Claim C9: BufferNode::max_size() is the largest value of the compact
internal index type, 2^32 - 1 = 4294967295 on an LP64 platform, and every
capacity accepted by node construction (which narrows through that type) is
at most this bound. -/
theorem maxSizeCorrect :
    BufferNode.max_size = 4294967295 ∧
    ∀ c : Nat, (mkBufferNode c).capacity ≤ BufferNode.max_size := by
  refine ⟨rfl, ?_⟩
  intro c
  show c % internalSizeMod ≤ BufferNode.max_size
  have h : c % internalSizeMod < internalSizeMod := Nat.mod_lt c (by decide)
  unfold BufferNode.max_size
  omega

/-- One slot-width decrement of a byte index drops the slot index by one. -/
theorem byte_index_to_index_sub (b : Nat) :
    byte_index_to_index (b - elementSize) = byte_index_to_index b - 1 := by
  simp only [byte_index_to_index, elementSize]
  omega

/-- Claim C1: try_enqueue returns failure and leaves the queue's index and
buffer contents unchanged when the queue has no buffer or the buffer is
full (index == 0); otherwise it decrements the index by one slot, stores
the value at the new index position (leaving the other slots unchanged),
and returns success — a value is never silently dropped. -/
theorem tryEnqueueCorrect :
    (∀ (q : PtrQueue) (v : Val), q.buf = none ∨ q.index = 0 →
      try_enqueue q v = (false, q)) ∧
    (∀ (q : PtrQueue) (n : BufferNode) (v : Val), q.buf = some n → q.index ≠ 0 →
      try_enqueue q v =
        (true, { indexBytes := q.indexBytes - elementSize,
                 buf := some { n with data := n.data.set (q.index - 1) v } }) ∧
      (try_enqueue q v).2.index = q.index - 1) := by
  constructor
  · intro q v h
    rcases h with hb | hz
    · simp [try_enqueue, hb]
    · cases hq : q.buf with
      | none => simp [try_enqueue, hq]
      | some n => simp [try_enqueue, hq, hz]
  · intro q n v hb hz
    have key : byte_index_to_index (q.indexBytes - elementSize) = q.index - 1 :=
      byte_index_to_index_sub q.indexBytes
    have heq : try_enqueue q v =
        (true, { indexBytes := q.indexBytes - elementSize,
                 buf := some { n with data := n.data.set (q.index - 1) v } }) := by
      simp [try_enqueue, hb, hz, key]
    exact ⟨heq, by rw [heq]; exact key⟩

/-- Witness for C1 at concrete inputs: a bufferless queue rejects the value
unchanged; a queue over a fresh capacity-2 buffer accepts it, storing it at
slot 1 and decrementing the index from 2 to 1. -/
theorem tryEnqueueCorrect_witness :
    (try_enqueue { indexBytes := 0, buf := none } 7 =
      (false, { indexBytes := 0, buf := none })) ∧
    (try_enqueue { indexBytes := 16, buf := some (mkBufferNode 2) } 7 =
      (true, { indexBytes := 8,
               buf := some { mkBufferNode 2 with data := [0, 7] } })) ∧
    (try_enqueue { indexBytes := 16, buf := some (mkBufferNode 2) } 7).2.index = 1 :=
  ⟨tryEnqueueCorrect.1 { indexBytes := 0, buf := none } 7 (Or.inl rfl),
   (tryEnqueueCorrect.2 { indexBytes := 16, buf := some (mkBufferNode 2) }
     (mkBufferNode 2) 7 rfl (by decide)).1,
   (tryEnqueueCorrect.2 { indexBytes := 16, buf := some (mkBufferNode 2) }
     (mkBufferNode 2) 7 rfl (by decide)).2⟩

/-- On a queue whose byte index stands at k slots with a buffer installed,
a run of k+1 enqueues yields k successes followed by one failure. -/
theorem runEnqueues_fill :
    ∀ (k : Nat) (vs : List Val) (q : PtrQueue) (n : BufferNode),
      q.buf = some n → q.indexBytes = index_to_byte_index k → vs.length = k + 1 →
      (runEnqueues q vs).1 = List.replicate k true ++ [false] := by
  intro k
  induction k with
  | zero =>
    intro vs q n hb hbytes hlen
    cases vs with
    | nil => simp at hlen
    | cons v vs' =>
      cases vs' with
      | nil =>
        have hidx : q.index = 0 := by
          simp [PtrQueue.index, byte_index_to_index, hbytes, index_to_byte_index]
        simp [runEnqueues, try_enqueue, hb, hidx]
      | cons w ws => simp at hlen
  | succ k ih =>
    intro vs q n hb hbytes hlen
    cases vs with
    | nil => simp at hlen
    | cons v vs' =>
      have hlen' : vs'.length = k + 1 := by simpa using hlen
      have hnz : ¬ q.index = 0 := by
        simp only [PtrQueue.index, byte_index_to_index, hbytes, index_to_byte_index,
          elementSize]
        omega
      have hstep := ih vs'
        { indexBytes := q.indexBytes - elementSize,
          buf := some { n with
            data := n.data.set (byte_index_to_index (q.indexBytes - elementSize)) v } }
        { n with data := n.data.set (byte_index_to_index (q.indexBytes - elementSize)) v }
        rfl
        (by simp only [hbytes, index_to_byte_index, elementSize]; omega)
        hlen'
      simp [runEnqueues, try_enqueue, hb, hnz, hstep, List.replicate_succ]

/-- Claim C2: on a queue holding a fresh (empty) buffer of capacity C, any
sequence of C+1 try_enqueue calls sees the first C succeed and the (C+1)-th
fail, regardless of the values enqueued. -/
theorem tryEnqueueFillCorrect (C : Nat) (vs : List Val) (q : PtrQueue) (n : BufferNode)
    (hb : q.buf = some n) (_hcap : n.capacity = C)
    (hfresh : q.indexBytes = index_to_byte_index C) (hlen : vs.length = C + 1) :
    (runEnqueues q vs).1 = List.replicate C true ++ [false] :=
  runEnqueues_fill C vs q n hb hfresh hlen

/-- Witness for C2 at a concrete input: a fresh capacity-2 buffer takes two
values and rejects the third. -/
theorem tryEnqueueFillCorrect_witness :
    (runEnqueues { indexBytes := index_to_byte_index 2, buf := some (mkBufferNode 2) }
      [7, 8, 9]).1 = List.replicate 2 true ++ [false] :=
  tryEnqueueFillCorrect 2 [7, 8, 9]
    { indexBytes := index_to_byte_index 2, buf := some (mkBufferNode 2) }
    (mkBufferNode 2) rfl (by decide) rfl rfl

/-- install_new_buffer leaves the queue holding a buffer (the node produced
by the allocator) that is empty: the queue's index equals its capacity. -/
theorem install_new_buffer_props (cap : Nat) (st : QSetState) :
    (install_new_buffer cap st).queue.buf = some (allocate cap st.freeList).1 ∧
    (install_new_buffer cap st).queue.index = (allocate cap st.freeList).1.capacity ∧
    (install_new_buffer cap st).queue.is_empty = true := by
  refine ⟨rfl, ?_, ?_⟩
  · show byte_index_to_index (index_to_byte_index (allocate cap st.freeList).1.capacity) =
      (allocate cap st.freeList).1.capacity
    simp only [byte_index_to_index, index_to_byte_index, elementSize]
    omega
  · show (PtrQueue.index _ == PtrQueue.current_capacity _) = true
    simp only [PtrQueue.index, PtrQueue.current_capacity, install_new_buffer,
      byte_index_to_index, index_to_byte_index, elementSize, beq_iff_eq]
    omega

/-- Counterexample for C6: flushing a queue with an absent buffer does not
increase the allocator's free count by one — there is no node to release;
the claim's grouping of the absent-buffer case with the empty-buffer case
fails at this input. -/
theorem flushQueueAbsentCex :
    ¬ (free_count (flush_queue emptyQSet) = free_count emptyQSet + 1) := by
  decide

/-- Claim C6 (amended): flush_queue on a queue with a non-empty buffer hands
exactly that buffer's node (index synchronised from the queue) to the
completed-buffer sink exactly once and leaves the free list untouched; with
an empty buffer it instead releases the node directly to the free list
(free count increases by one, no completed-buffer callback); with an absent
buffer it performs no release and no callback; in every case the queue ends
with no buffer. -/
theorem flushQueueCorrect :
    (∀ (st : QSetState) (n : BufferNode), st.queue.buf = some n →
      st.queue.index ≠ n.capacity →
      flush_queue st =
        { queue := { indexBytes := 0, buf := none }, freeList := st.freeList,
          completed := st.completed ++ [{ n with index := st.queue.index }] }) ∧
    (∀ (st : QSetState) (n : BufferNode), st.queue.buf = some n →
      st.queue.index = n.capacity →
      flush_queue st =
        { queue := { indexBytes := 0, buf := none },
          freeList := release { n with index := st.queue.index } st.freeList,
          completed := st.completed } ∧
      free_count (flush_queue st) = free_count st + 1) ∧
    (∀ st : QSetState, st.queue.buf = none →
      flush_queue st = st ∧ free_count (flush_queue st) = free_count st) := by
  refine ⟨?_, ?_, ?_⟩
  · intro st n hb hne
    simp [flush_queue, hb, hne]
  · intro st n hb he
    have heq : flush_queue st =
        { queue := { indexBytes := 0, buf := none },
          freeList := release { n with index := st.queue.index } st.freeList,
          completed := st.completed } := by
      simp [flush_queue, hb, he]
    refine ⟨heq, ?_⟩
    rw [heq]
    simp [free_count, release]
  · intro st hb
    simp [flush_queue, hb, free_count]

/-- Witness for C6 (amended) at concrete states: a one-entry capacity-1
buffer goes to the completed sink; an empty capacity-1 buffer goes to the
free list (free count 0 to 1); a bufferless queue leaves the state alone. -/
theorem flushQueueCorrect_witness :
    (flush_queue flushStNonEmpty =
      { queue := { indexBytes := 0, buf := none }, freeList := [],
        completed := [{ mkBufferNode 1 with index := 0 }] }) ∧
    free_count (flush_queue flushStEmpty) = free_count flushStEmpty + 1 ∧
    flush_queue emptyQSet = emptyQSet :=
  ⟨flushQueueCorrect.1 flushStNonEmpty (mkBufferNode 1) rfl (by decide),
   (flushQueueCorrect.2.1 flushStEmpty (mkBufferNode 1) rfl (by decide)).2,
   (flushQueueCorrect.2.2 emptyQSet rfl).1⟩

/-- Claim C7: exchange_buffer_with_new installs a fresh empty buffer (queue
index equals capacity) and returns the previously installed node — its
capacity and slot contents untouched, its index field synchronised to the
queue's fill index — or null if the queue had no buffer.  In the capacity-4
scenario, after enqueueing 1, 2, 3, 4 a fifth try_enqueue fails, the
exchange returns the node with index 0 and size 4, and the new queue buffer
is empty with index = capacity = 4. -/
theorem exchangeBufferCorrect :
    (∀ (cap : Nat) (st : QSetState) (n : BufferNode), st.queue.buf = some n →
      (exchange_buffer_with_new cap st).1 = some { n with index := st.queue.index } ∧
      (exchange_buffer_with_new cap st).2.queue.is_empty = true ∧
      (exchange_buffer_with_new cap st).2.queue.buf.isSome = true) ∧
    (∀ (cap : Nat) (st : QSetState), st.queue.buf = none →
      (exchange_buffer_with_new cap st).1 = none ∧
      (exchange_buffer_with_new cap st).2.queue.is_empty = true) ∧
    ((try_enqueue scenarioQueue 5).1 = false ∧
      scenarioExchange.1.map BufferNode.index = some 0 ∧
      scenarioExchange.1.map BufferNode.size = some 4 ∧
      scenarioExchange.1.map BufferNode.data = some [4, 3, 2, 1] ∧
      scenarioExchange.2.queue.index = 4 ∧
      scenarioExchange.2.queue.current_capacity = 4) := by
  refine ⟨?_, ?_, by decide⟩
  · intro cap st n hb
    have hp := install_new_buffer_props cap st
    refine ⟨by simp [exchange_buffer_with_new, hb], ?_, ?_⟩
    · exact hp.2.2
    · show ((install_new_buffer cap st).queue.buf).isSome = true
      rw [hp.1]
      rfl
  · intro cap st hb
    have hp := install_new_buffer_props cap st
    exact ⟨by simp [exchange_buffer_with_new, hb], hp.2.2⟩

/-- Witness for C7 at concrete states: exchanging on a queue with a full
capacity-1 buffer returns that node at index 0 and installs an empty one;
exchanging on a bufferless queue returns null and installs an empty one. -/
theorem exchangeBufferCorrect_witness :
    ((exchange_buffer_with_new 1 flushStNonEmpty).1 =
      some { mkBufferNode 1 with index := 0 }) ∧
    ((exchange_buffer_with_new 1 flushStNonEmpty).2.queue.is_empty = true) ∧
    ((exchange_buffer_with_new 4 emptyQSet).1 = none) ∧
    ((exchange_buffer_with_new 4 emptyQSet).2.queue.is_empty = true) :=
  ⟨(exchangeBufferCorrect.1 1 flushStNonEmpty (mkBufferNode 1) rfl).1,
   (exchangeBufferCorrect.1 1 flushStNonEmpty (mkBufferNode 1) rfl).2.1,
   (exchangeBufferCorrect.2.1 4 emptyQSet rfl).1,
   (exchangeBufferCorrect.2.1 4 emptyQSet rfl).2⟩

/-- Wrapping the left summand first does not change a wrapped sum. -/
theorem wrap64_add_left (a b : Int) : wrap64 (wrap64 a + b) = wrap64 (a + b) := by
  unfold wrap64
  omega

/-- Wrapping the right summand first does not change a wrapped sum. -/
theorem wrap64_add_right (a b : Int) : wrap64 (a + wrap64 b) = wrap64 (a + b) := by
  unfold wrap64
  omega

/-- wrap64 fixes zero. -/
theorem wrap64_zero : wrap64 0 = 0 := by
  unfold wrap64
  omega

/-- wrap64 fixes every value already in the jlong range. -/
theorem wrap64_eq_self (x : Int) (h1 : -9223372036854775808 ≤ x)
    (h2 : x < 9223372036854775808) : wrap64 x = x := by
  unfold wrap64
  omega

/-- inc_gc_total_cpu_time never touches the published counter. -/
theorem incs_gc_total : ∀ (ds : List Int) (s : CPUTimeCountersState),
    (incs s ds).gc_total = s.gc_total := by
  intro ds
  induction ds with
  | nil => intro s; rfl
  | cons d ds ih =>
    intro s
    show (incs (inc_gc_total_cpu_time s d) ds).gc_total = s.gc_total
    rw [ih]
    rfl

/-- Accumulated difference after a run of increments: the wrapped sum of the
starting difference and all increment amounts. -/
theorem incs_diff : ∀ (ds : List Int) (s : CPUTimeCountersState),
    wrap64 s.gc_total_cpu_time_diff = s.gc_total_cpu_time_diff →
    (incs s ds).gc_total_cpu_time_diff =
      wrap64 (s.gc_total_cpu_time_diff + ds.sum) := by
  intro ds
  induction ds with
  | nil =>
    intro s hw
    show s.gc_total_cpu_time_diff = wrap64 (s.gc_total_cpu_time_diff + 0)
    rw [add_zero, hw]
  | cons d ds ih =>
    intro s hw
    show (incs (inc_gc_total_cpu_time s d) ds).gc_total_cpu_time_diff = _
    rw [ih (inc_gc_total_cpu_time s d)
      (by
        show wrap64 (wrap64 (s.gc_total_cpu_time_diff + d)) =
          wrap64 (s.gc_total_cpu_time_diff + d)
        have h0 := wrap64_add_left (s.gc_total_cpu_time_diff + d) 0
        rw [add_zero, add_zero] at h0
        exact h0)]
    show wrap64 (wrap64 (s.gc_total_cpu_time_diff + d) + ds.sum) =
      wrap64 (s.gc_total_cpu_time_diff + (d :: ds).sum)
    rw [wrap64_add_left, List.sum_cons, add_assoc]

/-- Claim C10: in a sequential execution, publish_gc_total_cpu_time adds to
the gc_total performance counter exactly the (jlong) sum of all amounts
passed to inc_gc_total_cpu_time since the previous publish (starting from a
zero accumulated difference), and leaves _gc_total_cpu_time_diff equal to
zero — no accumulated time is lost or counted twice; when the exact sum
fits the jlong range, the counter receives exactly that sum. -/
theorem publishGcTotalCorrect (ds : List Int) (s : CPUTimeCountersState)
    (h : s.gc_total_cpu_time_diff = 0) :
    (publish_gc_total_cpu_time (incs s ds)).gc_total_cpu_time_diff = 0 ∧
    (publish_gc_total_cpu_time (incs s ds)).gc_total = wrap64 (s.gc_total + ds.sum) ∧
    (-9223372036854775808 ≤ s.gc_total + ds.sum →
      s.gc_total + ds.sum < 9223372036854775808 →
      (publish_gc_total_cpu_time (incs s ds)).gc_total = s.gc_total + ds.sum) := by
  have hd : (incs s ds).gc_total_cpu_time_diff = wrap64 ds.sum := by
    have h1 := incs_diff ds s (by rw [h]; exact wrap64_zero)
    rw [h, zero_add] at h1
    exact h1
  have hg : (incs s ds).gc_total = s.gc_total := incs_gc_total ds s
  refine ⟨rfl, ?_, ?_⟩
  · show wrap64 ((incs s ds).gc_total + (incs s ds).gc_total_cpu_time_diff) = _
    rw [hd, hg, wrap64_add_right]
  · intro hlo hhi
    show wrap64 ((incs s ds).gc_total + (incs s ds).gc_total_cpu_time_diff) = _
    rw [hd, hg, wrap64_add_right]
    exact wrap64_eq_self _ hlo hhi

/-- Witness for C10 at a concrete run: from a published state with counter
10, increments of 3 and 4 followed by a publish leave the difference at 0
and the counter at 17. -/
theorem publishGcTotalCorrect_witness :
    (publish_gc_total_cpu_time
      (incs { gc_total_cpu_time_diff := 0, gc_total := 10 } [3, 4])).gc_total_cpu_time_diff = 0 ∧
    (publish_gc_total_cpu_time
      (incs { gc_total_cpu_time_diff := 0, gc_total := 10 } [3, 4])).gc_total =
      wrap64 (10 + [3, 4].sum) ∧
    (publish_gc_total_cpu_time
      (incs { gc_total_cpu_time_diff := 0, gc_total := 10 } [3, 4])).gc_total =
      10 + [3, 4].sum :=
  ⟨(publishGcTotalCorrect [3, 4] { gc_total_cpu_time_diff := 0, gc_total := 10 } rfl).1,
   (publishGcTotalCorrect [3, 4] { gc_total_cpu_time_diff := 0, gc_total := 10 } rfl).2.1,
   (publishGcTotalCorrect [3, 4] { gc_total_cpu_time_diff := 0, gc_total := 10 } rfl).2.2
     (by decide) (by decide)⟩
